import Mathlib

/-!
Shallow embedding of the runtime core of the lf-gfx library: the resizable
surface state machine (src/game/surface.rs), the game event/command loop
(src/game.rs), the input classification (src/game.rs, src/game/input.rs),
the limits algebra (src/limits.rs) and the adapter ranking heuristics
(src/adapter_query.rs).  Machine integers (u32/u64) only ever hold sizes and
capability limits here, and no operation in the embedded code can overflow
them in practice, so they are modelled as Nat; the f32/f64 scalars of the
input path are modelled as rationals.
-/

namespace LfGfx

/-! ### Ordering utilities

`natCmp` mirrors Rust `Ord::cmp` on unsigned integers, `Ordering.then`
mirrors Rust `Ordering::then`, and `rustMaxBy` mirrors
`Iterator::max_by(compare)`, which keeps the last of equally-maximum
elements (`if compare(acc, x) == Greater { acc } else { x }` folded over the
iterator). -/

def natCmp (a b : Nat) : Ordering :=
  if a < b then Ordering.lt else if a = b then Ordering.eq else Ordering.gt

theorem natCmp_self (a : Nat) : natCmp a a = Ordering.eq := by
  simp [natCmp]

theorem natCmp_eq_gt {a b : Nat} : natCmp a b = Ordering.gt ↔ b < a := by
  unfold natCmp
  split_ifs with h1 h2 <;> simp <;> omega

theorem natCmp_eq_eq {a b : Nat} : natCmp a b = Ordering.eq ↔ a = b := by
  unfold natCmp
  split_ifs with h1 h2 <;> simp <;> omega

theorem natCmp_swap (a b : Nat) : natCmp a b = (natCmp b a).swap := by
  unfold natCmp
  split_ifs <;> simp [Ordering.swap] <;> omega

theorem ordering_then_eq (o : Ordering) : o.then Ordering.eq = o := by
  cases o <;> rfl

theorem ordering_then_assoc (a b c : Ordering) :
    (a.then b).then c = a.then (b.then c) := by
  cases a <;> rfl

theorem ordering_then_swap (a b : Ordering) :
    (a.then b).swap = a.swap.then b.swap := by
  cases a <;> rfl

theorem ordering_then_ne_lt {o r : Ordering} :
    o.then r ≠ Ordering.lt ↔ (o = Ordering.gt ∨ (o = Ordering.eq ∧ r ≠ Ordering.lt)) := by
  cases o <;> simp [Ordering.then]

/-- Lexicographic comparison of two equal-length key lists, the shape that a
chain of `cmp(..).then(cmp(..)).then(..)` takes. -/
def keysCmp : List Nat → List Nat → Ordering
  | [], [] => Ordering.eq
  | a :: restA, b :: restB => (natCmp a b).then (keysCmp restA restB)
  | _, _ => Ordering.eq

theorem keysCmp_self : ∀ l : List Nat, keysCmp l l = Ordering.eq := by
  intro l
  induction l with
  | nil => rfl
  | cons a l ih => simp [keysCmp, natCmp_self, ih, Ordering.then]

theorem keysCmp_swap : ∀ a b : List Nat, keysCmp a b = (keysCmp b a).swap := by
  intro a
  induction a with
  | nil => intro b; cases b <;> rfl
  | cons x xs ih =>
    intro b
    cases b with
    | nil => rfl
    | cons y ys =>
      simp [keysCmp, ordering_then_swap, ih ys, natCmp_swap x y]

theorem keysCmp_trans : ∀ a b c : List Nat, a.length = b.length → b.length = c.length →
    keysCmp a b ≠ Ordering.lt → keysCmp b c ≠ Ordering.lt → keysCmp a c ≠ Ordering.lt := by
  intro a
  induction a with
  | nil =>
    intro b c hab hbc
    cases b <;> cases c <;> simp_all [keysCmp]
  | cons x xs ih =>
    intro b c hab hbc
    cases b with
    | nil => exact absurd hab (by simp)
    | cons y ys =>
      cases c with
      | nil => exact absurd hbc (by simp)
      | cons z zs =>
        simp only [keysCmp, ordering_then_ne_lt, natCmp_eq_gt, natCmp_eq_eq]
        simp only [List.length_cons, Nat.add_right_cancel_iff] at hab hbc
        rintro (h1 | ⟨rfl, h1⟩) (h2 | ⟨rfl, h2⟩)
        · exact Or.inl (Nat.lt_trans h2 h1)
        · exact Or.inl h1
        · exact Or.inl h2
        · exact Or.inr ⟨rfl, ih ys zs hab hbc h1 h2⟩

/-- One step of Rust `Iterator::max_by`: keep the accumulator only when it
compares strictly greater, so the last of equal maxima wins. -/
def rustMaxStep {α : Type} (cmp : α → α → Ordering) (acc x : α) : α :=
  if cmp acc x = Ordering.gt then acc else x

/-- Rust `Iterator::max_by(compare)`: `none` on an empty iterator, otherwise
the fold of `rustMaxStep` over the elements. -/
def rustMaxBy {α : Type} (cmp : α → α → Ordering) : List α → Option α
  | [] => none
  | x :: xs => some (List.foldl (rustMaxStep cmp) x xs)

theorem rustMaxBy_eq_none {α : Type} (cmp : α → α → Ordering) (l : List α) :
    rustMaxBy cmp l = none ↔ l = [] := by
  cases l <;> simp [rustMaxBy]

theorem foldl_rustMaxStep_mem {α : Type} (cmp : α → α → Ordering) :
    ∀ (xs : List α) (x : α),
      List.foldl (rustMaxStep cmp) x xs = x ∨ List.foldl (rustMaxStep cmp) x xs ∈ xs := by
  intro xs
  induction xs with
  | nil => intro x; exact Or.inl rfl
  | cons y ys ih =>
    intro x
    simp only [List.foldl_cons]
    rcases ih (rustMaxStep cmp x y) with h | h
    · rw [h]
      unfold rustMaxStep
      split_ifs
      · exact Or.inl rfl
      · exact Or.inr (List.mem_cons_self y ys)
    · exact Or.inr (List.mem_cons_of_mem y h)

theorem rustMaxBy_mem {α : Type} {cmp : α → α → Ordering} {l : List α} {a : α}
    (h : rustMaxBy cmp l = some a) : a ∈ l := by
  cases l with
  | nil => simp [rustMaxBy] at h
  | cons x xs =>
    simp only [rustMaxBy, Option.some.injEq] at h
    rcases foldl_rustMaxStep_mem cmp xs x with hm | hm
    · rw [h] at hm; rw [hm]; exact List.mem_cons_self x xs
    · rw [h] at hm; exact List.mem_cons_of_mem x hm

theorem cmp_self_ne_lt {α : Type} {cmp : α → α → Ordering}
    (hswap : ∀ a b, cmp a b = (cmp b a).swap) (x : α) : cmp x x ≠ Ordering.lt := by
  intro hlt
  have h := hswap x x
  rw [hlt] at h
  simp [Ordering.swap] at h

theorem cmp_swap_ne_lt {α : Type} {cmp : α → α → Ordering}
    (hswap : ∀ a b, cmp a b = (cmp b a).swap) {a b : α}
    (h : cmp a b ≠ Ordering.gt) : cmp b a ≠ Ordering.lt := by
  intro hlt
  rw [hswap b a] at hlt
  cases hab : cmp a b <;> simp_all [Ordering.swap]

theorem foldl_rustMaxStep_max {α : Type} {cmp : α → α → Ordering}
    (hswap : ∀ a b, cmp a b = (cmp b a).swap)
    (htrans : ∀ a b c, cmp a b ≠ Ordering.lt → cmp b c ≠ Ordering.lt → cmp a c ≠ Ordering.lt) :
    ∀ (xs : List α) (x : α),
      cmp (List.foldl (rustMaxStep cmp) x xs) x ≠ Ordering.lt ∧
      ∀ b ∈ xs, cmp (List.foldl (rustMaxStep cmp) x xs) b ≠ Ordering.lt := by
  intro xs
  induction xs with
  | nil =>
    intro x
    exact ⟨cmp_self_ne_lt hswap x, by simp⟩
  | cons y ys ih =>
    intro x
    simp only [List.foldl_cons]
    by_cases hxy : cmp x y = Ordering.gt
    · have hstep : rustMaxStep cmp x y = x := by simp [rustMaxStep, hxy]
      rw [hstep]
      obtain ⟨hacc, hrest⟩ := ih x
      refine ⟨hacc, ?_⟩
      intro b hb
      rcases List.mem_cons.mp hb with rfl | hb
      · exact htrans _ _ _ hacc (by simp [hxy])
      · exact hrest b hb
    · have hstep : rustMaxStep cmp x y = y := by simp [rustMaxStep, hxy]
      rw [hstep]
      obtain ⟨hacc, hrest⟩ := ih y
      refine ⟨htrans _ _ _ hacc (cmp_swap_ne_lt hswap hxy), ?_⟩
      intro b hb
      rcases List.mem_cons.mp hb with rfl | hb
      · exact hacc
      · exact hrest b hb

theorem rustMaxBy_max {α : Type} {cmp : α → α → Ordering}
    (hswap : ∀ a b, cmp a b = (cmp b a).swap)
    (htrans : ∀ a b c, cmp a b ≠ Ordering.lt → cmp b c ≠ Ordering.lt → cmp a c ≠ Ordering.lt)
    {l : List α} {a : α} (h : rustMaxBy cmp l = some a) :
    ∀ b ∈ l, cmp a b ≠ Ordering.lt := by
  cases l with
  | nil => simp [rustMaxBy] at h
  | cons x xs =>
    simp only [rustMaxBy, Option.some.injEq] at h
    subst h
    intro b hb
    obtain ⟨hfirst, hrest⟩ := foldl_rustMaxStep_max hswap htrans xs x
    rcases List.mem_cons.mp hb with rfl | hb
    · exact hfirst
    · exact hrest b hb

/-! ### Capability limits (src/limits.rs)

`wgpu::Limits` has 27 maximum-capacity fields and 2 required-alignment
fields.  The `binop_limits!` macro applies one operation to every `max`
field and the other to every `min` field; `limits_intersection` is
`(min, max)` and `limits_union` is `(max, min)`. -/

@[ext]
structure Limits where
  max_texture_dimension_1d : Nat
  max_texture_dimension_2d : Nat
  max_texture_dimension_3d : Nat
  max_texture_array_layers : Nat
  max_bind_groups : Nat
  max_bindings_per_bind_group : Nat
  max_dynamic_uniform_buffers_per_pipeline_layout : Nat
  max_dynamic_storage_buffers_per_pipeline_layout : Nat
  max_sampled_textures_per_shader_stage : Nat
  max_samplers_per_shader_stage : Nat
  max_storage_buffers_per_shader_stage : Nat
  max_storage_textures_per_shader_stage : Nat
  max_uniform_buffers_per_shader_stage : Nat
  max_uniform_buffer_binding_size : Nat
  max_storage_buffer_binding_size : Nat
  max_vertex_buffers : Nat
  max_buffer_size : Nat
  max_vertex_attributes : Nat
  max_vertex_buffer_array_stride : Nat
  max_inter_stage_shader_components : Nat
  max_compute_workgroup_storage_size : Nat
  max_compute_invocations_per_workgroup : Nat
  max_compute_workgroup_size_x : Nat
  max_compute_workgroup_size_y : Nat
  max_compute_workgroup_size_z : Nat
  max_compute_workgroups_per_dimension : Nat
  max_push_constant_size : Nat
  min_uniform_buffer_offset_alignment : Nat
  min_storage_buffer_offset_alignment : Nat
deriving DecidableEq

def limits_intersection (lhs rhs : Limits) : Limits where
  max_texture_dimension_1d := min lhs.max_texture_dimension_1d rhs.max_texture_dimension_1d
  max_texture_dimension_2d := min lhs.max_texture_dimension_2d rhs.max_texture_dimension_2d
  max_texture_dimension_3d := min lhs.max_texture_dimension_3d rhs.max_texture_dimension_3d
  max_texture_array_layers := min lhs.max_texture_array_layers rhs.max_texture_array_layers
  max_bind_groups := min lhs.max_bind_groups rhs.max_bind_groups
  max_bindings_per_bind_group := min lhs.max_bindings_per_bind_group rhs.max_bindings_per_bind_group
  max_dynamic_uniform_buffers_per_pipeline_layout := min lhs.max_dynamic_uniform_buffers_per_pipeline_layout rhs.max_dynamic_uniform_buffers_per_pipeline_layout
  max_dynamic_storage_buffers_per_pipeline_layout := min lhs.max_dynamic_storage_buffers_per_pipeline_layout rhs.max_dynamic_storage_buffers_per_pipeline_layout
  max_sampled_textures_per_shader_stage := min lhs.max_sampled_textures_per_shader_stage rhs.max_sampled_textures_per_shader_stage
  max_samplers_per_shader_stage := min lhs.max_samplers_per_shader_stage rhs.max_samplers_per_shader_stage
  max_storage_buffers_per_shader_stage := min lhs.max_storage_buffers_per_shader_stage rhs.max_storage_buffers_per_shader_stage
  max_storage_textures_per_shader_stage := min lhs.max_storage_textures_per_shader_stage rhs.max_storage_textures_per_shader_stage
  max_uniform_buffers_per_shader_stage := min lhs.max_uniform_buffers_per_shader_stage rhs.max_uniform_buffers_per_shader_stage
  max_uniform_buffer_binding_size := min lhs.max_uniform_buffer_binding_size rhs.max_uniform_buffer_binding_size
  max_storage_buffer_binding_size := min lhs.max_storage_buffer_binding_size rhs.max_storage_buffer_binding_size
  max_vertex_buffers := min lhs.max_vertex_buffers rhs.max_vertex_buffers
  max_buffer_size := min lhs.max_buffer_size rhs.max_buffer_size
  max_vertex_attributes := min lhs.max_vertex_attributes rhs.max_vertex_attributes
  max_vertex_buffer_array_stride := min lhs.max_vertex_buffer_array_stride rhs.max_vertex_buffer_array_stride
  max_inter_stage_shader_components := min lhs.max_inter_stage_shader_components rhs.max_inter_stage_shader_components
  max_compute_workgroup_storage_size := min lhs.max_compute_workgroup_storage_size rhs.max_compute_workgroup_storage_size
  max_compute_invocations_per_workgroup := min lhs.max_compute_invocations_per_workgroup rhs.max_compute_invocations_per_workgroup
  max_compute_workgroup_size_x := min lhs.max_compute_workgroup_size_x rhs.max_compute_workgroup_size_x
  max_compute_workgroup_size_y := min lhs.max_compute_workgroup_size_y rhs.max_compute_workgroup_size_y
  max_compute_workgroup_size_z := min lhs.max_compute_workgroup_size_z rhs.max_compute_workgroup_size_z
  max_compute_workgroups_per_dimension := min lhs.max_compute_workgroups_per_dimension rhs.max_compute_workgroups_per_dimension
  max_push_constant_size := min lhs.max_push_constant_size rhs.max_push_constant_size
  min_uniform_buffer_offset_alignment := max lhs.min_uniform_buffer_offset_alignment rhs.min_uniform_buffer_offset_alignment
  min_storage_buffer_offset_alignment := max lhs.min_storage_buffer_offset_alignment rhs.min_storage_buffer_offset_alignment

def limits_union (lhs rhs : Limits) : Limits where
  max_texture_dimension_1d := max lhs.max_texture_dimension_1d rhs.max_texture_dimension_1d
  max_texture_dimension_2d := max lhs.max_texture_dimension_2d rhs.max_texture_dimension_2d
  max_texture_dimension_3d := max lhs.max_texture_dimension_3d rhs.max_texture_dimension_3d
  max_texture_array_layers := max lhs.max_texture_array_layers rhs.max_texture_array_layers
  max_bind_groups := max lhs.max_bind_groups rhs.max_bind_groups
  max_bindings_per_bind_group := max lhs.max_bindings_per_bind_group rhs.max_bindings_per_bind_group
  max_dynamic_uniform_buffers_per_pipeline_layout := max lhs.max_dynamic_uniform_buffers_per_pipeline_layout rhs.max_dynamic_uniform_buffers_per_pipeline_layout
  max_dynamic_storage_buffers_per_pipeline_layout := max lhs.max_dynamic_storage_buffers_per_pipeline_layout rhs.max_dynamic_storage_buffers_per_pipeline_layout
  max_sampled_textures_per_shader_stage := max lhs.max_sampled_textures_per_shader_stage rhs.max_sampled_textures_per_shader_stage
  max_samplers_per_shader_stage := max lhs.max_samplers_per_shader_stage rhs.max_samplers_per_shader_stage
  max_storage_buffers_per_shader_stage := max lhs.max_storage_buffers_per_shader_stage rhs.max_storage_buffers_per_shader_stage
  max_storage_textures_per_shader_stage := max lhs.max_storage_textures_per_shader_stage rhs.max_storage_textures_per_shader_stage
  max_uniform_buffers_per_shader_stage := max lhs.max_uniform_buffers_per_shader_stage rhs.max_uniform_buffers_per_shader_stage
  max_uniform_buffer_binding_size := max lhs.max_uniform_buffer_binding_size rhs.max_uniform_buffer_binding_size
  max_storage_buffer_binding_size := max lhs.max_storage_buffer_binding_size rhs.max_storage_buffer_binding_size
  max_vertex_buffers := max lhs.max_vertex_buffers rhs.max_vertex_buffers
  max_buffer_size := max lhs.max_buffer_size rhs.max_buffer_size
  max_vertex_attributes := max lhs.max_vertex_attributes rhs.max_vertex_attributes
  max_vertex_buffer_array_stride := max lhs.max_vertex_buffer_array_stride rhs.max_vertex_buffer_array_stride
  max_inter_stage_shader_components := max lhs.max_inter_stage_shader_components rhs.max_inter_stage_shader_components
  max_compute_workgroup_storage_size := max lhs.max_compute_workgroup_storage_size rhs.max_compute_workgroup_storage_size
  max_compute_invocations_per_workgroup := max lhs.max_compute_invocations_per_workgroup rhs.max_compute_invocations_per_workgroup
  max_compute_workgroup_size_x := max lhs.max_compute_workgroup_size_x rhs.max_compute_workgroup_size_x
  max_compute_workgroup_size_y := max lhs.max_compute_workgroup_size_y rhs.max_compute_workgroup_size_y
  max_compute_workgroup_size_z := max lhs.max_compute_workgroup_size_z rhs.max_compute_workgroup_size_z
  max_compute_workgroups_per_dimension := max lhs.max_compute_workgroups_per_dimension rhs.max_compute_workgroups_per_dimension
  max_push_constant_size := max lhs.max_push_constant_size rhs.max_push_constant_size
  min_uniform_buffer_offset_alignment := min lhs.min_uniform_buffer_offset_alignment rhs.min_uniform_buffer_offset_alignment
  min_storage_buffer_offset_alignment := min lhs.min_storage_buffer_offset_alignment rhs.min_storage_buffer_offset_alignment

/-- The permissive component-wise order on limit sets: `a` is below `b` when
every maximum-capacity field of `a` is at most that of `b` and every
required-alignment field of `a` is at least that of `b` (a larger alignment
requirement is more restrictive). -/
def limitsLE (a b : Limits) : Prop :=
  a.max_texture_dimension_1d ≤ b.max_texture_dimension_1d ∧
  a.max_texture_dimension_2d ≤ b.max_texture_dimension_2d ∧
  a.max_texture_dimension_3d ≤ b.max_texture_dimension_3d ∧
  a.max_texture_array_layers ≤ b.max_texture_array_layers ∧
  a.max_bind_groups ≤ b.max_bind_groups ∧
  a.max_bindings_per_bind_group ≤ b.max_bindings_per_bind_group ∧
  a.max_dynamic_uniform_buffers_per_pipeline_layout ≤ b.max_dynamic_uniform_buffers_per_pipeline_layout ∧
  a.max_dynamic_storage_buffers_per_pipeline_layout ≤ b.max_dynamic_storage_buffers_per_pipeline_layout ∧
  a.max_sampled_textures_per_shader_stage ≤ b.max_sampled_textures_per_shader_stage ∧
  a.max_samplers_per_shader_stage ≤ b.max_samplers_per_shader_stage ∧
  a.max_storage_buffers_per_shader_stage ≤ b.max_storage_buffers_per_shader_stage ∧
  a.max_storage_textures_per_shader_stage ≤ b.max_storage_textures_per_shader_stage ∧
  a.max_uniform_buffers_per_shader_stage ≤ b.max_uniform_buffers_per_shader_stage ∧
  a.max_uniform_buffer_binding_size ≤ b.max_uniform_buffer_binding_size ∧
  a.max_storage_buffer_binding_size ≤ b.max_storage_buffer_binding_size ∧
  a.max_vertex_buffers ≤ b.max_vertex_buffers ∧
  a.max_buffer_size ≤ b.max_buffer_size ∧
  a.max_vertex_attributes ≤ b.max_vertex_attributes ∧
  a.max_vertex_buffer_array_stride ≤ b.max_vertex_buffer_array_stride ∧
  a.max_inter_stage_shader_components ≤ b.max_inter_stage_shader_components ∧
  a.max_compute_workgroup_storage_size ≤ b.max_compute_workgroup_storage_size ∧
  a.max_compute_invocations_per_workgroup ≤ b.max_compute_invocations_per_workgroup ∧
  a.max_compute_workgroup_size_x ≤ b.max_compute_workgroup_size_x ∧
  a.max_compute_workgroup_size_y ≤ b.max_compute_workgroup_size_y ∧
  a.max_compute_workgroup_size_z ≤ b.max_compute_workgroup_size_z ∧
  a.max_compute_workgroups_per_dimension ≤ b.max_compute_workgroups_per_dimension ∧
  a.max_push_constant_size ≤ b.max_push_constant_size ∧
  b.min_uniform_buffer_offset_alignment ≤ a.min_uniform_buffer_offset_alignment ∧
  b.min_storage_buffer_offset_alignment ≤ a.min_storage_buffer_offset_alignment

/-! ### Adapter selection (src/adapter_query.rs) -/

/-- The `lim_cmp!` macro expansion: compare two limit sets by
`max_buffer_size`, then `max_compute_workgroup_storage_size`, then
`max_push_constant_size`, then the 2d/1d/3d texture dimensions, each later
comparison applied through `Ordering::then` of the previous one. -/
def compare_limits (lim1 lim2 : Limits) : Ordering :=
  (((((natCmp lim1.max_buffer_size lim2.max_buffer_size).then
    (natCmp lim1.max_compute_workgroup_storage_size lim2.max_compute_workgroup_storage_size)).then
    (natCmp lim1.max_push_constant_size lim2.max_push_constant_size)).then
    (natCmp lim1.max_texture_dimension_2d lim2.max_texture_dimension_2d)).then
    (natCmp lim1.max_texture_dimension_1d lim2.max_texture_dimension_1d)).then
    (natCmp lim1.max_texture_dimension_3d lim2.max_texture_dimension_3d)

/-- The ordered key tuple that `compare_limits` compares lexicographically. -/
def limit_sort_keys (l : Limits) : List Nat :=
  [l.max_buffer_size, l.max_compute_workgroup_storage_size, l.max_push_constant_size,
   l.max_texture_dimension_2d, l.max_texture_dimension_1d, l.max_texture_dimension_3d]

theorem compare_limits_eq_keysCmp (a b : Limits) :
    compare_limits a b = keysCmp (limit_sort_keys a) (limit_sort_keys b) := by
  simp [compare_limits, limit_sort_keys, keysCmp, ordering_then_eq, ordering_then_assoc]

theorem compare_limits_swap (a b : Limits) :
    compare_limits a b = (compare_limits b a).swap := by
  rw [compare_limits_eq_keysCmp, compare_limits_eq_keysCmp, keysCmp_swap]

theorem compare_limits_trans (a b c : Limits)
    (h1 : compare_limits a b ≠ Ordering.lt) (h2 : compare_limits b c ≠ Ordering.lt) :
    compare_limits a c ≠ Ordering.lt := by
  rw [compare_limits_eq_keysCmp] at h1 h2 ⊢
  exact keysCmp_trans _ _ _ (by simp [limit_sort_keys]) (by simp [limit_sort_keys]) h1 h2

/-- `wgpu::DeviceType`. -/
inductive DeviceType where
  | Other
  | IntegratedGpu
  | DiscreteGpu
  | VirtualGpu
  | Cpu
deriving DecidableEq

def device_type_ranking (dt : DeviceType) : Nat :=
  match dt with
  | DeviceType.DiscreteGpu => 4
  | DeviceType.IntegratedGpu => 3
  | DeviceType.VirtualGpu => 2
  | DeviceType.Other => 1
  | DeviceType.Cpu => 0

theorem device_type_ranking_injective :
    ∀ a b : DeviceType, device_type_ranking a = device_type_ranking b → a = b := by
  intro a b
  cases a <;> cases b <;> simp [device_type_ranking]

/-- A `wgpu::Adapter` at the granularity this module inspects: its reported
device type and numeric device identity (`AdapterInfo`), which surfaces it
supports, and its capability limits. -/
structure Adapter where
  device_type : DeviceType
  device : Nat
  surface_support : Nat → Bool
  limits : Limits

/-- `AdapterQuery`: an optional surface the adapter must support, a
blacklist of adapters whose device identity must be avoided, and an optional
forced device type. -/
structure AdapterQuery where
  compatible_surface : Option Nat
  physical_blacklist : List Adapter
  force_adapter_type : Option DeviceType

def AdapterQuery.is_adapter_allowed (q : AdapterQuery) (adapter : Adapter) : Bool :=
  (match q.force_adapter_type with
   | some forced => decide (forced = adapter.device_type)
   | none => true) &&
  (match q.compatible_surface with
   | some surface => adapter.surface_support surface
   | none => true) &&
  q.physical_blacklist.all (fun device => decide (adapter.device ≠ device.device))

def rank_compare (a b : DeviceType) : Ordering :=
  natCmp (device_type_ranking a) (device_type_ranking b)

def adapter_limits_compare (a b : Adapter) : Ordering :=
  compare_limits a.limits b.limits

/-- `request_powerful_adapter`: filter the enumerated adapters through the
query, choose the best device category with `max_by_key`, then among the
adapters of that category take the `max_by` of the limits comparison. -/
def request_powerful_adapter (adapters : List Adapter) (query : AdapterQuery) :
    Option Adapter :=
  let all := adapters.filter (fun adapter => query.is_adapter_allowed adapter)
  match rustMaxBy rank_compare (all.map (fun a => a.device_type)) with
  | none => none
  | some best_device_type =>
    rustMaxBy adapter_limits_compare
      (all.filter (fun adapter => decide (adapter.device_type = best_device_type)))

/-! ### Resizable surface (src/game/surface.rs)

The tri-state of the atomic `state` cell.  The u32 encoding used for atomic
storage is injective (`encode`), so the cell is modelled by the enumeration
itself.  The surface object is modelled by the pair of width/height fields
of its `SurfaceConfiguration` plus the log of `surface.configure` calls, and
the `queue.on_submitted_work_done` registration is modelled by a counter of
callbacks armed with the queue. -/

inductive ResizableSurfaceState where
  | Active
  | ResizingQueued
  | Inactive
deriving DecidableEq

def ResizableSurfaceState.encode (s : ResizableSurfaceState) : Nat :=
  match s with
  | ResizableSurfaceState.Active => 0
  | ResizableSurfaceState.ResizingQueued => 1
  | ResizableSurfaceState.Inactive => 2

theorem ResizableSurfaceState.encode_injective :
    ∀ a b : ResizableSurfaceState, a.encode = b.encode → a = b := by
  intro a b
  cases a <;> cases b <;> simp [ResizableSurfaceState.encode]

@[ext]
structure ResizableSurface where
  config_width : Nat
  config_height : Nat
  configure_log : List (Nat × Nat)
  state : ResizableSurfaceState
  new_size : Nat × Nat
  armed_callbacks : Nat

/-- `ResizableSurface::resize`: store `ResizingQueued` into the atomic,
record the target size, and register a completion callback with the queue
(`queue.on_submitted_work_done`), unconditionally. -/
def ResizableSurface.resize (s : ResizableSurface) (sz : Nat × Nat) : ResizableSurface :=
  { s with
    state := ResizableSurfaceState.ResizingQueued
    new_size := sz
    armed_callbacks := s.armed_callbacks + 1 }

/-- The closure registered by `resize` with `on_submitted_work_done`: a
compare-and-swap ResizingQueued → Inactive whose failure is discarded. -/
def ResizableSurface.work_done_callback (s : ResizableSurface) : ResizableSurface :=
  if s.state = ResizableSurfaceState.ResizingQueued then
    { s with state := ResizableSurfaceState.Inactive }
  else s

/-- `ResizableSurface::get`.  The first atomic operation is the `SeqCst`
load of `state`; the second is the compare-and-swap Inactive → Active.  The
completion callback runs on a queue executor thread, so the cell's value at
the instant the compare-and-swap executes is a separate input
`state_at_cas`; in a run without interference it equals the loaded value.
The compare-and-swap stores `Active` on success and leaves the cell
untouched on failure. -/
def ResizableSurface.get (s : ResizableSurface) (state_at_cas : ResizableSurfaceState) :
    Option Unit × ResizableSurface :=
  match s.state with
  | ResizableSurfaceState.ResizingQueued => (none, s)
  | ResizableSurfaceState.Inactive =>
    let reconfigured :=
      { s with
        config_width := s.new_size.1
        config_height := s.new_size.2
        configure_log := s.configure_log ++ [s.new_size] }
    if state_at_cas = ResizableSurfaceState.Inactive then
      (some (), { reconfigured with state := ResizableSurfaceState.Active })
    else
      (none, { reconfigured with state := state_at_cas })
  | ResizableSurfaceState.Active => (some (), s)

/-! ### Game state machine (src/game.rs)

`InputMode` with its four derived policies, `GameCommand`, and the pieces of
`GameState` that the event loop reads and writes.  Mouse sensitivity is a
rational standing for the `f32` scalar.  `surface_configure_log` records the
`surface.configure` calls made by `GameState::resize`, and
`window_resize_calls` records the invocations of the game's `window_resize`
callback. -/

inductive InputMode where
  | Exclusive
  | UI
  | Unified
deriving DecidableEq

def InputMode.should_hide_cursor (m : InputMode) : Bool :=
  match m with
  | InputMode.Exclusive => true
  | InputMode.UI => false
  | InputMode.Unified => false

def InputMode.should_handle_input (m : InputMode) : Bool :=
  match m with
  | InputMode.Exclusive => true
  | InputMode.UI => false
  | InputMode.Unified => true

def InputMode.should_propogate_raw_input (m : InputMode) : Bool :=
  match m with
  | InputMode.Exclusive => false
  | InputMode.UI => true
  | InputMode.Unified => true

def InputMode.should_lock_cursor (m : InputMode) : Bool :=
  match m with
  | InputMode.Exclusive => true
  | InputMode.UI => false
  | InputMode.Unified => false

inductive GameCommand where
  | Exit
  | SetInputMode (mode : InputMode)
  | SetMouseSensitivity (value : ℚ)
deriving DecidableEq

inductive SurfaceError where
  | Timeout
  | Outdated
  | Lost
  | OutOfMemory
deriving DecidableEq

@[ext]
structure GameLoopState where
  exit_flag : Bool
  queue : List GameCommand
  input_mode : InputMode
  cursor_visible : Bool
  mouse_sensitivity : ℚ
  size : Nat × Nat
  config_size : Nat × Nat
  surface_configure_log : List (Nat × Nat)
  window_resize_calls : List (Nat × Nat)
  control_flow_exit : Bool

/-- One arm of the `match cmd` in `GameState::pre_frame_update`. -/
def apply_command (s : GameLoopState) (cmd : GameCommand) : GameLoopState :=
  match cmd with
  | GameCommand.Exit => { s with exit_flag := true }
  | GameCommand.SetInputMode mode =>
    { s with
      input_mode := mode
      cursor_visible := !mode.should_hide_cursor }
  | GameCommand.SetMouseSensitivity v => { s with mouse_sensitivity := v }

/-- `GameState::pre_frame_update`: drain every queued command
non-blockingly, applying them in the order they were enqueued. -/
def pre_frame_update (s : GameLoopState) : GameLoopState :=
  { s.queue.foldl apply_command s with queue := [] }

/-- `GameState::request_exit` (reached from `CloseRequested`/`Destroyed`):
set the exit flag, then invoke `Game::user_exit_requested`; the trait's
default body enqueues `GameCommand::Exit`, but an implementation may enqueue
anything (including nothing), so the commands it sends are a parameter. -/
def request_exit (s : GameLoopState) (user_exit_commands : List GameCommand) :
    GameLoopState :=
  { s with exit_flag := true, queue := s.queue ++ user_exit_commands }

def default_user_exit_commands : List GameCommand := [GameCommand.Exit]

/-- `GameState::resize`: guarded on both dimensions being nonzero; updates
the cached size and the surface configuration, reconfigures the surface
(after a blocking drain of submitted GPU work), and invokes the game's
`window_resize` callback. -/
def GameLoopState.resize (s : GameLoopState) (new_size : Nat × Nat) : GameLoopState :=
  if 0 < new_size.1 ∧ 0 < new_size.2 then
    { s with
      size := new_size
      config_size := new_size
      surface_configure_log := s.surface_configure_log ++ [new_size]
      window_resize_calls := s.window_resize_calls ++ [new_size] }
  else s

/-- `GameState::render`, abstracted over the surface acquisition outcome:
`get_current_texture` either fails with a `SurfaceError` or yields a frame
whose `suboptimal` flag is the `Bool`; a sub-optimal presented frame is
turned into `Err(SurfaceError::Lost)`. -/
def render (acquire : Except SurfaceError Bool) : Except SurfaceError Unit :=
  match acquire with
  | Except.error e => Except.error e
  | Except.ok suboptimal =>
    if suboptimal then Except.error SurfaceError.Lost else Except.ok ()

/-- The command drain followed by the exit-flag check, as they run at the
start of each `RedrawRequested` arm. -/
def post_command_state (s : GameLoopState) : GameLoopState :=
  let s1 := pre_frame_update s
  if s1.exit_flag then { s1 with control_flow_exit := true } else s1

/-- The `Event::RedrawRequested` arm of `GameState::process_event`: poll the
device, drain commands, exit if the flag is set, then render one frame and
dispatch on its error. -/
def process_redraw_requested (s : GameLoopState) (acquire : Except SurfaceError Bool) :
    GameLoopState :=
  let s2 := post_command_state s
  match render acquire with
  | Except.ok _ => s2
  | Except.error SurfaceError.Lost => s2.resize s2.size
  | Except.error SurfaceError.OutOfMemory => { s2 with control_flow_exit := true }
  | Except.error _ => s2

/-- The `WindowEvent::Resized` arms: the literal `(0, 0)` size is ignored as
a minimize, every other size is passed to `GameState::resize`. -/
def process_resized (s : GameLoopState) (sz : Nat × Nat) : GameLoopState :=
  if sz.1 = 0 ∧ sz.2 = 0 then s else s.resize sz

/-- The `WindowEvent::ScaleFactorChanged` arm routes straight into
`GameState::resize`. -/
def process_scale_factor_changed (s : GameLoopState) (sz : Nat × Nat) : GameLoopState :=
  s.resize sz

/-! ### Pointer input classification (src/game.rs CursorMoved arm,
src/game/input.rs activations)

`rust_clamp` is `f32::clamp(lo, hi)`; `LinearInputActivation::clamp` clamps
into [0,1] and `VectorInputActivation::clamp` clamps each axis into
[-1,1]. -/

inductive MouseInputType where
  | MoveLeft
  | MoveRight
  | MoveUp
  | MoveDown
  | ScrollUp
  | ScrollDown
deriving DecidableEq

def rust_clamp (v lo hi : ℚ) : ℚ := min (max v lo) hi

def linear_activation_clamp (v : ℚ) : ℚ := rust_clamp v 0 1

def vector_activation_clamp (x y : ℚ) : ℚ × ℚ :=
  (rust_clamp x (-1) 1, rust_clamp y (-1) 1)

/-- `GameState::process_linear_mouse_movement`: one linear action chosen by
the axis of strictly larger absolute delta (ties fall into the vertical
`else` branch), with the delta's magnitude scaled by the sensitivity and
clamped into [0,1]. -/
def process_linear_mouse_movement (sensitivity delta_x delta_y : ℚ) :
    MouseInputType × ℚ :=
  if |delta_x| > |delta_y| then
    if delta_x > 0 then
      (MouseInputType.MoveRight, linear_activation_clamp (delta_x * sensitivity))
    else
      (MouseInputType.MoveLeft, linear_activation_clamp (-delta_x * sensitivity))
  else
    if delta_y > 0 then
      (MouseInputType.MoveUp, linear_activation_clamp (delta_y * sensitivity))
    else
      (MouseInputType.MoveDown, linear_activation_clamp (-delta_y * sensitivity))

/-- The input classification done by the `WindowEvent::CursorMoved` arm for
a motion of deltas `(delta_x, delta_y)`: a linear event only when either
delta exceeds the jitter threshold of 2, and a vector event for every
motion. -/
def cursor_moved_classify (sensitivity delta_x delta_y : ℚ) :
    Option (MouseInputType × ℚ) × (ℚ × ℚ) :=
  ((if |delta_x| > 2 ∨ |delta_y| > 2 then
      some (process_linear_mouse_movement sensitivity delta_x delta_y)
    else none),
   vector_activation_clamp (delta_x * sensitivity) (delta_y * sensitivity))

/-! ### Bring-up of the input map (src/game.rs, `GameState::new`)

After the command channel is created and seeded with
`SetInputMode(Unified)`, `GameState::new` builds the input map with
`let input_map = T::default_inputs();` — the persisted-bindings machinery
(`local_storage::load`, `InputMap::from_str`) is never invoked there.  An
input mapping is modelled extensionally, as its lookup function from keys to
optional actions. -/

structure BringUpResult where
  seeded_queue : List GameCommand
  input_map : Nat → Option Nat
  input_mode : InputMode
  mouse_sensitivity : ℚ

/-- The tail of `GameState::new`: seed the fresh unbounded channel with
`SetInputMode(Unified)` and take the input map to be exactly the
game-declared defaults. -/
def game_state_new (default_inputs : Nat → Option Nat) : BringUpResult :=
  { seeded_queue := [GameCommand.SetInputMode InputMode.Unified]
    input_map := default_inputs
    input_mode := InputMode.Unified
    mouse_sensitivity := 1 / 100 }

/-- The input map the spec describes instead: persisted user bindings
overlaid over the defaults, user values winning on key collision (a union
with right-bias). -/
def spec_merged_input_map (default_inputs persisted : Nat → Option Nat) :
    Nat → Option Nat :=
  fun key =>
    match persisted key with
    | some v => some v
    | none => default_inputs key

/-! ### Supporting lemmas about the command drain and the redraw tick -/

theorem natCmp_ne_lt {a b : Nat} : natCmp a b ≠ Ordering.lt ↔ b ≤ a := by
  unfold natCmp
  split_ifs with h1 h2 <;> simp <;> omega

theorem foldl_apply_command_exit_flag :
    ∀ (l : List GameCommand) (s : GameLoopState),
      ((l.foldl apply_command s).exit_flag = true ↔
        (s.exit_flag = true ∨ GameCommand.Exit ∈ l)) := by
  intro l
  induction l with
  | nil => intro s; simp
  | cons c l ih =>
    intro s
    rw [List.foldl_cons, ih (apply_command s c)]
    cases c <;> simp [apply_command]

theorem foldl_apply_command_preserves :
    ∀ (l : List GameCommand) (s : GameLoopState),
      (l.foldl apply_command s).control_flow_exit = s.control_flow_exit ∧
      (l.foldl apply_command s).size = s.size ∧
      (l.foldl apply_command s).config_size = s.config_size ∧
      (l.foldl apply_command s).surface_configure_log = s.surface_configure_log ∧
      (l.foldl apply_command s).window_resize_calls = s.window_resize_calls := by
  intro l
  induction l with
  | nil => intro s; simp
  | cons c l ih =>
    intro s
    rw [List.foldl_cons]
    have h := ih (apply_command s c)
    cases c <;> simpa [apply_command] using h

theorem pre_frame_update_exit_flag (s : GameLoopState) :
    ((pre_frame_update s).exit_flag = true ↔
      (s.exit_flag = true ∨ GameCommand.Exit ∈ s.queue)) := by
  rw [show (pre_frame_update s).exit_flag = (s.queue.foldl apply_command s).exit_flag from rfl]
  exact foldl_apply_command_exit_flag s.queue s

theorem post_command_state_control (s : GameLoopState) :
    (post_command_state s).control_flow_exit =
      (s.control_flow_exit || (pre_frame_update s).exit_flag) := by
  have hc : (pre_frame_update s).control_flow_exit = s.control_flow_exit := by
    simpa [pre_frame_update] using (foldl_apply_command_preserves s.queue s).1
  by_cases h : (pre_frame_update s).exit_flag = true
  · simp [post_command_state, h]
  · simp only [Bool.not_eq_true] at h
    simp [post_command_state, h, hc]

theorem post_command_state_size (s : GameLoopState) :
    (post_command_state s).size = s.size := by
  have hs : (pre_frame_update s).size = s.size := by
    simpa [pre_frame_update] using (foldl_apply_command_preserves s.queue s).2.1
  by_cases h : (pre_frame_update s).exit_flag = true
  · simp [post_command_state, h, hs]
  · simp only [Bool.not_eq_true] at h
    simp [post_command_state, h, hs]

theorem resize_control_flow (s : GameLoopState) (sz : Nat × Nat) :
    (s.resize sz).control_flow_exit = s.control_flow_exit := by
  unfold GameLoopState.resize
  split_ifs <;> rfl

/-! ### Claim theorems -/

/-- C1: `ResizableSurface::get(device)` behaves by cases on the loaded
atomic state: `ResizingQueued` returns `None` leaving the surface
completely untouched; `Inactive` reconfigures the surface exactly once with
the recorded target size and then compare-and-swaps Inactive → Active,
yielding `Some(surface)` exactly when the compare-and-swap succeeds and
`None` (with the cell left at its interfering value) when it fails;
`Active` returns `Some(surface)` immediately with no reconfiguration. -/
theorem c1_resizable_surface_get (s : ResizableSurface) (c : ResizableSurfaceState) :
    (s.state = ResizableSurfaceState.ResizingQueued → s.get c = (none, s)) ∧
    (s.state = ResizableSurfaceState.Inactive →
      ((s.get c).2.configure_log = s.configure_log ++ [s.new_size] ∧
       (s.get c).2.config_width = s.new_size.1 ∧
       (s.get c).2.config_height = s.new_size.2 ∧
       (c = ResizableSurfaceState.Inactive →
         (s.get c).1 = some () ∧ (s.get c).2.state = ResizableSurfaceState.Active) ∧
       (c ≠ ResizableSurfaceState.Inactive →
         (s.get c).1 = none ∧ (s.get c).2.state = c))) ∧
    (s.state = ResizableSurfaceState.Active → s.get c = (some (), s)) := by
  refine ⟨?_, ?_, ?_⟩
  · intro h
    simp [ResizableSurface.get, h]
  · intro h
    by_cases hc : c = ResizableSurfaceState.Inactive
    · simp [ResizableSurface.get, h, hc]
    · simp [ResizableSurface.get, h, hc]
  · intro h
    simp [ResizableSurface.get, h]

theorem c1_resizable_surface_get_witness :
    ((⟨3, 3, [], ResizableSurfaceState.Inactive, (7, 5), 0⟩ : ResizableSurface).get
        ResizableSurfaceState.Inactive).1 = some () ∧
    ((⟨3, 3, [], ResizableSurfaceState.Inactive, (7, 5), 0⟩ : ResizableSurface).get
        ResizableSurfaceState.Inactive).2.state = ResizableSurfaceState.Active ∧
    ((⟨3, 3, [], ResizableSurfaceState.Inactive, (7, 5), 0⟩ : ResizableSurface).get
        ResizableSurfaceState.Inactive).2.configure_log = [(7, 5)] := by
  obtain ⟨-, h2, -⟩ :=
    c1_resizable_surface_get ⟨3, 3, [], ResizableSurfaceState.Inactive, (7, 5), 0⟩
      ResizableSurfaceState.Inactive
  obtain ⟨hlog, -, -, hsucc, -⟩ := h2 rfl
  obtain ⟨hres, hstate⟩ := hsucc rfl
  exact ⟨hres, hstate, by simpa using hlog⟩

/-- C3 counterexample: calling `resize` while the state is still
`ResizingQueued` increments the number of callbacks armed with the queue,
so it is not true that a second `resize` only overwrites the target size
without re-arming a completion callback. -/
theorem c3_counterexample :
    ((⟨4, 4, [], ResizableSurfaceState.ResizingQueued, (2, 2), 1⟩ :
        ResizableSurface).resize (9, 9)).armed_callbacks ≠
      (⟨4, 4, [], ResizableSurfaceState.ResizingQueued, (2, 2), 1⟩ :
        ResizableSurface).armed_callbacks := by
  simp [ResizableSurface.resize]

/-- C3 (amended): a second `resize` issued while the state is still
`ResizingQueued` overwrites the recorded target size, leaves the state at
`ResizingQueued` and the surface unreconfigured, and registers one
additional completion callback with the GPU queue (the source arms the
`on_submitted_work_done` callback unconditionally on every `resize`). -/
theorem c3_resize_rearms_callback (s : ResizableSurface) (sz : Nat × Nat)
    (_h : s.state = ResizableSurfaceState.ResizingQueued) :
    s.resize sz =
      { s with
        state := ResizableSurfaceState.ResizingQueued
        new_size := sz
        armed_callbacks := s.armed_callbacks + 1 } ∧
    (s.resize sz).new_size = sz ∧
    (s.resize sz).configure_log = s.configure_log ∧
    (s.resize sz).armed_callbacks = s.armed_callbacks + 1 := by
  exact ⟨rfl, rfl, rfl, rfl⟩

theorem c3_resize_rearms_callback_witness :
    ((⟨4, 4, [], ResizableSurfaceState.ResizingQueued, (2, 2), 1⟩ :
        ResizableSurface).resize (9, 9)).new_size = (9, 9) ∧
    ((⟨4, 4, [], ResizableSurfaceState.ResizingQueued, (2, 2), 1⟩ :
        ResizableSurface).resize (9, 9)).armed_callbacks = 2 := by
  obtain ⟨-, hsz, -, hcb⟩ :=
    c3_resize_rearms_callback
      ⟨4, 4, [], ResizableSurfaceState.ResizingQueued, (2, 2), 1⟩ (9, 9) rfl
  exact ⟨hsz, hcb⟩

/-- C4 counterexample: `GameState::new` builds the input map as the
game-declared defaults alone, so on a persisted binding that collides with
a default the built map disagrees with the merge (persisted wins) the claim
describes. -/
theorem c4_counterexample :
    (game_state_new (fun k => if k = 0 then some 1 else none)).input_map 0 ≠
      spec_merged_input_map (fun k => if k = 0 then some 1 else none)
        (fun k => if k = 0 then some 2 else none) 0 := by
  simp [game_state_new, spec_merged_input_map]

/-- C4 (amended): during bring-up, after the command channel is constructed
and seeded with `SetInputMode(Unified)`, the input map is built directly
from the game-declared default bindings; no persisted user bindings are
loaded or merged. -/
theorem c4_input_map_is_defaults (default_inputs : Nat → Option Nat) :
    (game_state_new default_inputs).input_map = default_inputs ∧
    (game_state_new default_inputs).seeded_queue =
      [GameCommand.SetInputMode InputMode.Unified] ∧
    (game_state_new default_inputs).input_mode = InputMode.Unified := by
  exact ⟨rfl, rfl, rfl⟩

/-- C2 counterexample: starting from a clean state, a Close/Destroy event
handled by `request_exit` with a `user_exit_requested` override that
enqueues nothing leaves the command queue empty, yet the next redraw tick
sets the control flow to exit purely from the flag check — so the loop does
not terminate only as a consequence of the drain processing
`GameCommand::Exit`. -/
theorem c2_counterexample :
    (process_redraw_requested
        (request_exit
          (⟨false, [], InputMode.Unified, true, 1 / 100, (800, 600), (800, 600), [], [],
            false⟩ : GameLoopState) [])
        (Except.ok false)).control_flow_exit = true ∧
    (request_exit
        (⟨false, [], InputMode.Unified, true, 1 / 100, (800, 600), (800, 600), [], [],
          false⟩ : GameLoopState) []).queue = [] ∧
    GameCommand.Exit ∉
      (request_exit
        (⟨false, [], InputMode.Unified, true, 1 / 100, (800, 600), (800, 600), [], [],
          false⟩ : GameLoopState) []).queue := by
  refine ⟨rfl, rfl, ?_⟩
  simp [request_exit]

/-- C2 (amended): the loop's control flow is set to exit at a redraw tick
exactly when it was already exiting, the exit flag was set before the tick,
the drain processes a `GameCommand::Exit`, or rendering fails with
out-of-memory.  A Close/Destroy event sets the exit flag directly (and the
default `user_exit_requested` additionally enqueues `GameCommand::Exit`)
without touching the control flow, so the flag set by it alone already ends
the loop at the next redraw tick's flag check, which runs after the drain. -/
theorem c2_exit_flag_ends_loop (s : GameLoopState) (acquire : Except SurfaceError Bool)
    (cmds : List GameCommand) :
    ((process_redraw_requested s acquire).control_flow_exit = true ↔
      (s.control_flow_exit = true ∨ s.exit_flag = true ∨ GameCommand.Exit ∈ s.queue ∨
        acquire = Except.error SurfaceError.OutOfMemory)) ∧
    (request_exit s cmds).exit_flag = true ∧
    (request_exit s cmds).control_flow_exit = s.control_flow_exit ∧
    request_exit s default_user_exit_commands =
      { s with exit_flag := true, queue := s.queue ++ [GameCommand.Exit] } := by
  refine ⟨?_, rfl, rfl, rfl⟩
  have hpc := post_command_state_control s
  have hflag := pre_frame_update_exit_flag s
  cases acquire with
  | ok b =>
    cases b <;>
      simp [process_redraw_requested, render, resize_control_flow, hpc, hflag,
        Bool.or_eq_true, or_assoc]
  | error e =>
    cases e <;>
      simp [process_redraw_requested, render, resize_control_flow, hpc, hflag,
        Bool.or_eq_true, or_assoc]

/-- C5: the once-per-tick drain applies every queued command in FIFO order;
`SetMouseSensitivity` replaces the sensitivity scalar and `SetInputMode`
replaces the mode and derives cursor visibility from its hide-cursor
policy.  From mode `Unified` and sensitivity 0.01, draining
`[SetMouseSensitivity 0.05, SetInputMode Exclusive]` leaves sensitivity
0.05, mode `Exclusive`, and the cursor hidden. -/
theorem c5_command_drain (s : GameLoopState)
    (_hmode : s.input_mode = InputMode.Unified)
    (_hsens : s.mouse_sensitivity = 1 / 100)
    (hqueue : s.queue = [GameCommand.SetMouseSensitivity (5 / 100),
      GameCommand.SetInputMode InputMode.Exclusive]) :
    (∀ t : GameLoopState,
      pre_frame_update t = { t.queue.foldl apply_command t with queue := [] }) ∧
    pre_frame_update s =
      { apply_command (apply_command s (GameCommand.SetMouseSensitivity (5 / 100)))
          (GameCommand.SetInputMode InputMode.Exclusive) with queue := [] } ∧
    (pre_frame_update s).mouse_sensitivity = 5 / 100 ∧
    (pre_frame_update s).input_mode = InputMode.Exclusive ∧
    (pre_frame_update s).cursor_visible = false ∧
    (pre_frame_update s).queue = [] := by
  refine ⟨fun t => rfl, ?_, ?_, ?_, ?_, ?_⟩ <;>
    simp [pre_frame_update, hqueue, apply_command, InputMode.should_hide_cursor]

theorem c5_command_drain_witness :
    (pre_frame_update
      (⟨false, [GameCommand.SetMouseSensitivity (5 / 100),
          GameCommand.SetInputMode InputMode.Exclusive],
        InputMode.Unified, true, 1 / 100, (800, 600), (800, 600), [], [],
        false⟩ : GameLoopState)).mouse_sensitivity = 5 / 100 ∧
    (pre_frame_update
      (⟨false, [GameCommand.SetMouseSensitivity (5 / 100),
          GameCommand.SetInputMode InputMode.Exclusive],
        InputMode.Unified, true, 1 / 100, (800, 600), (800, 600), [], [],
        false⟩ : GameLoopState)).input_mode = InputMode.Exclusive ∧
    (pre_frame_update
      (⟨false, [GameCommand.SetMouseSensitivity (5 / 100),
          GameCommand.SetInputMode InputMode.Exclusive],
        InputMode.Unified, true, 1 / 100, (800, 600), (800, 600), [], [],
        false⟩ : GameLoopState)).cursor_visible = false := by
  obtain ⟨-, -, h3, h4, h5, -⟩ :=
    c5_command_drain
      ⟨false, [GameCommand.SetMouseSensitivity (5 / 100),
          GameCommand.SetInputMode InputMode.Exclusive],
        InputMode.Unified, true, 1 / 100, (800, 600), (800, 600), [], [], false⟩
      rfl rfl rfl
  exact ⟨h3, h4, h5⟩

/-- C8: after the drain (which leaves the cached size unchanged), a
surface-lost render error triggers a resize using the cached size, an
out-of-memory error sets the control flow to exit, the other errors
(outdated, timeout) leave the state unchanged for the next tick, and a
frame acquired with the sub-optimal flag makes `render` return the same
surface-lost error. -/
theorem c8_render_error_dispatch (s : GameLoopState) :
    (post_command_state s).size = s.size ∧
    process_redraw_requested s (Except.error SurfaceError.Lost) =
      (post_command_state s).resize (post_command_state s).size ∧
    (process_redraw_requested s (Except.error SurfaceError.OutOfMemory)).control_flow_exit =
      true ∧
    process_redraw_requested s (Except.error SurfaceError.Outdated) = post_command_state s ∧
    process_redraw_requested s (Except.error SurfaceError.Timeout) = post_command_state s ∧
    render (Except.ok true) = Except.error SurfaceError.Lost ∧
    process_redraw_requested s (Except.ok true) =
      process_redraw_requested s (Except.error SurfaceError.Lost) ∧
    render (Except.ok false) = Except.ok () ∧
    process_redraw_requested s (Except.ok false) = post_command_state s := by
  exact ⟨post_command_state_size s, rfl, rfl, rfl, rfl, rfl, rfl, rfl, rfl⟩

/-- C10: `GameState::resize` is a no-op whenever either requested dimension
is zero — the whole state, including the cached size, the surface
configuration and log, and the `window_resize` callback log, is left
unchanged — and the scale-factor-change arm and the surface-lost recovery
route through this same guarded resize. -/
theorem c10_zero_size_resize_guard (s : GameLoopState) (sz : Nat × Nat)
    (h : sz.1 = 0 ∨ sz.2 = 0) :
    s.resize sz = s ∧
    process_resized s sz = s ∧
    process_scale_factor_changed s sz = s ∧
    (s.size.1 = 0 ∨ s.size.2 = 0 →
      process_redraw_requested s (Except.error SurfaceError.Lost) = post_command_state s) := by
  have hres : ∀ (t : GameLoopState) (z : Nat × Nat), z.1 = 0 ∨ z.2 = 0 → t.resize z = t := by
    intro t z hz
    unfold GameLoopState.resize
    rw [if_neg (by omega)]
  refine ⟨hres s sz h, ?_, hres s sz h, ?_⟩
  · unfold process_resized
    split_ifs with h0
    · rfl
    · exact hres s sz h
  · intro hzero
    show (post_command_state s).resize (post_command_state s).size = post_command_state s
    exact hres _ _ (by rw [post_command_state_size]; exact hzero)

theorem c10_zero_size_resize_guard_witness :
    (⟨false, [], InputMode.Unified, true, 1 / 100, (800, 600), (800, 600), [], [],
      false⟩ : GameLoopState).resize (0, 5) =
      (⟨false, [], InputMode.Unified, true, 1 / 100, (800, 600), (800, 600), [], [],
        false⟩ : GameLoopState) ∧
    process_resized
      (⟨false, [], InputMode.Unified, true, 1 / 100, (800, 600), (800, 600), [], [],
        false⟩ : GameLoopState) (0, 5) =
      (⟨false, [], InputMode.Unified, true, 1 / 100, (800, 600), (800, 600), [], [],
        false⟩ : GameLoopState) := by
  obtain ⟨h1, h2, -, -⟩ :=
    c10_zero_size_resize_guard
      ⟨false, [], InputMode.Unified, true, 1 / 100, (800, 600), (800, 600), [], [], false⟩
      (0, 5) (Or.inl rfl)
  exact ⟨h1, h2⟩

/-- C7: `limits_intersection` takes the field-wise minimum on every
maximum-capacity field and the field-wise maximum on every
required-alignment field, and `limits_union` takes the opposite per field;
hence the intersection is below both arguments and the union above both in
the permissive component-wise order, and both operations are idempotent. -/
theorem c7_limits_algebra (A B : Limits) :
    limits_intersection A B =
      ⟨min A.max_texture_dimension_1d B.max_texture_dimension_1d,
      min A.max_texture_dimension_2d B.max_texture_dimension_2d,
      min A.max_texture_dimension_3d B.max_texture_dimension_3d,
      min A.max_texture_array_layers B.max_texture_array_layers,
      min A.max_bind_groups B.max_bind_groups,
      min A.max_bindings_per_bind_group B.max_bindings_per_bind_group,
      min A.max_dynamic_uniform_buffers_per_pipeline_layout B.max_dynamic_uniform_buffers_per_pipeline_layout,
      min A.max_dynamic_storage_buffers_per_pipeline_layout B.max_dynamic_storage_buffers_per_pipeline_layout,
      min A.max_sampled_textures_per_shader_stage B.max_sampled_textures_per_shader_stage,
      min A.max_samplers_per_shader_stage B.max_samplers_per_shader_stage,
      min A.max_storage_buffers_per_shader_stage B.max_storage_buffers_per_shader_stage,
      min A.max_storage_textures_per_shader_stage B.max_storage_textures_per_shader_stage,
      min A.max_uniform_buffers_per_shader_stage B.max_uniform_buffers_per_shader_stage,
      min A.max_uniform_buffer_binding_size B.max_uniform_buffer_binding_size,
      min A.max_storage_buffer_binding_size B.max_storage_buffer_binding_size,
      min A.max_vertex_buffers B.max_vertex_buffers,
      min A.max_buffer_size B.max_buffer_size,
      min A.max_vertex_attributes B.max_vertex_attributes,
      min A.max_vertex_buffer_array_stride B.max_vertex_buffer_array_stride,
      min A.max_inter_stage_shader_components B.max_inter_stage_shader_components,
      min A.max_compute_workgroup_storage_size B.max_compute_workgroup_storage_size,
      min A.max_compute_invocations_per_workgroup B.max_compute_invocations_per_workgroup,
      min A.max_compute_workgroup_size_x B.max_compute_workgroup_size_x,
      min A.max_compute_workgroup_size_y B.max_compute_workgroup_size_y,
      min A.max_compute_workgroup_size_z B.max_compute_workgroup_size_z,
      min A.max_compute_workgroups_per_dimension B.max_compute_workgroups_per_dimension,
      min A.max_push_constant_size B.max_push_constant_size,
      max A.min_uniform_buffer_offset_alignment B.min_uniform_buffer_offset_alignment,
      max A.min_storage_buffer_offset_alignment B.min_storage_buffer_offset_alignment⟩ ∧
    limits_union A B =
      ⟨max A.max_texture_dimension_1d B.max_texture_dimension_1d,
      max A.max_texture_dimension_2d B.max_texture_dimension_2d,
      max A.max_texture_dimension_3d B.max_texture_dimension_3d,
      max A.max_texture_array_layers B.max_texture_array_layers,
      max A.max_bind_groups B.max_bind_groups,
      max A.max_bindings_per_bind_group B.max_bindings_per_bind_group,
      max A.max_dynamic_uniform_buffers_per_pipeline_layout B.max_dynamic_uniform_buffers_per_pipeline_layout,
      max A.max_dynamic_storage_buffers_per_pipeline_layout B.max_dynamic_storage_buffers_per_pipeline_layout,
      max A.max_sampled_textures_per_shader_stage B.max_sampled_textures_per_shader_stage,
      max A.max_samplers_per_shader_stage B.max_samplers_per_shader_stage,
      max A.max_storage_buffers_per_shader_stage B.max_storage_buffers_per_shader_stage,
      max A.max_storage_textures_per_shader_stage B.max_storage_textures_per_shader_stage,
      max A.max_uniform_buffers_per_shader_stage B.max_uniform_buffers_per_shader_stage,
      max A.max_uniform_buffer_binding_size B.max_uniform_buffer_binding_size,
      max A.max_storage_buffer_binding_size B.max_storage_buffer_binding_size,
      max A.max_vertex_buffers B.max_vertex_buffers,
      max A.max_buffer_size B.max_buffer_size,
      max A.max_vertex_attributes B.max_vertex_attributes,
      max A.max_vertex_buffer_array_stride B.max_vertex_buffer_array_stride,
      max A.max_inter_stage_shader_components B.max_inter_stage_shader_components,
      max A.max_compute_workgroup_storage_size B.max_compute_workgroup_storage_size,
      max A.max_compute_invocations_per_workgroup B.max_compute_invocations_per_workgroup,
      max A.max_compute_workgroup_size_x B.max_compute_workgroup_size_x,
      max A.max_compute_workgroup_size_y B.max_compute_workgroup_size_y,
      max A.max_compute_workgroup_size_z B.max_compute_workgroup_size_z,
      max A.max_compute_workgroups_per_dimension B.max_compute_workgroups_per_dimension,
      max A.max_push_constant_size B.max_push_constant_size,
      min A.min_uniform_buffer_offset_alignment B.min_uniform_buffer_offset_alignment,
      min A.min_storage_buffer_offset_alignment B.min_storage_buffer_offset_alignment⟩ ∧
    limitsLE (limits_intersection A B) A ∧
    limitsLE (limits_intersection A B) B ∧
    limitsLE A (limits_union A B) ∧
    limitsLE B (limits_union A B) ∧
    limits_intersection A A = A ∧
    limits_union A A = A := by
  refine ⟨rfl, rfl, ?_, ?_, ?_, ?_, ?_, ?_⟩
  · simp only [limitsLE, limits_intersection]
    omega
  · simp only [limitsLE, limits_intersection]
    omega
  · simp only [limitsLE, limits_union]
    omega
  · simp only [limitsLE, limits_union]
    omega
  · ext <;> simp [limits_intersection]
  · ext <;> simp [limits_union]

/-- C6: a linear input is classified only when either pointer delta exceeds
the jitter threshold of 2; the direction is chosen by the axis of strictly
larger absolute delta (a tie falls to the vertical branch) with activation
`clamp(|delta| * sensitivity)` into [0,1]; a vector activation clamped per
axis into [-1,1] is produced for every motion regardless of the
threshold. -/
theorem c6_pointer_classification (sensitivity delta_x delta_y : ℚ) :
    ((|delta_x| ≤ 2 ∧ |delta_y| ≤ 2) →
      (cursor_moved_classify sensitivity delta_x delta_y).1 = none) ∧
    ((|delta_x| > 2 ∨ |delta_y| > 2) →
      (cursor_moved_classify sensitivity delta_x delta_y).1 =
        some (process_linear_mouse_movement sensitivity delta_x delta_y)) ∧
    (|delta_x| > |delta_y| → 0 < delta_x →
      process_linear_mouse_movement sensitivity delta_x delta_y =
        (MouseInputType.MoveRight, linear_activation_clamp (|delta_x| * sensitivity))) ∧
    (|delta_x| > |delta_y| → delta_x ≤ 0 →
      process_linear_mouse_movement sensitivity delta_x delta_y =
        (MouseInputType.MoveLeft, linear_activation_clamp (|delta_x| * sensitivity))) ∧
    (|delta_x| ≤ |delta_y| → 0 < delta_y →
      process_linear_mouse_movement sensitivity delta_x delta_y =
        (MouseInputType.MoveUp, linear_activation_clamp (|delta_y| * sensitivity))) ∧
    (|delta_x| ≤ |delta_y| → delta_y ≤ 0 →
      process_linear_mouse_movement sensitivity delta_x delta_y =
        (MouseInputType.MoveDown, linear_activation_clamp (|delta_y| * sensitivity))) ∧
    (cursor_moved_classify sensitivity delta_x delta_y).2 =
      vector_activation_clamp (delta_x * sensitivity) (delta_y * sensitivity) := by
  refine ⟨?_, ?_, ?_, ?_, ?_, ?_, rfl⟩
  · intro h
    have hc : ¬(|delta_x| > 2 ∨ |delta_y| > 2) := by push_neg; exact h
    simp only [cursor_moved_classify]
    rw [if_neg hc]
  · intro h
    simp only [cursor_moved_classify]
    rw [if_pos h]
  · intro h hx
    unfold process_linear_mouse_movement
    rw [if_pos h, if_pos hx, abs_of_pos hx]
  · intro h hx
    unfold process_linear_mouse_movement
    rw [if_pos h, if_neg (not_lt.mpr hx), abs_of_nonpos hx]
  · intro h hy
    unfold process_linear_mouse_movement
    rw [if_neg (not_lt.mpr h), if_pos hy, abs_of_pos hy]
  · intro h hy
    unfold process_linear_mouse_movement
    rw [if_neg (not_lt.mpr h), if_neg (not_lt.mpr hy), abs_of_nonpos hy]

theorem c6_pointer_classification_witness :
    (cursor_moved_classify (1 / 10) 5 1).1 = some (MouseInputType.MoveRight, 1 / 2) ∧
    (cursor_moved_classify (1 / 10) 5 1).2 = (1 / 2, 1 / 10) ∧
    (cursor_moved_classify (1 / 10) 1 1).1 = none := by
  obtain ⟨-, h2, h3, -, -, -, h7⟩ := c6_pointer_classification (1 / 10) 5 1
  obtain ⟨g1, -⟩ := c6_pointer_classification (1 / 10) 1 1
  refine ⟨?_, ?_, g1 (by norm_num)⟩
  · rw [h2 (by norm_num), h3 (by norm_num) (by norm_num)]
    norm_num [linear_activation_clamp, rust_clamp, max_def, min_def]
  · rw [h7]
    norm_num [vector_activation_clamp, rust_clamp, max_def, min_def]

theorem request_powerful_adapter_eq (adapters : List Adapter) (query : AdapterQuery) :
    request_powerful_adapter adapters query =
      match rustMaxBy rank_compare
          ((adapters.filter fun a => query.is_adapter_allowed a).map fun a => a.device_type) with
      | none => none
      | some best_device_type =>
        rustMaxBy adapter_limits_compare
          ((adapters.filter fun a => query.is_adapter_allowed a).filter
            fun adapter => decide (adapter.device_type = best_device_type)) := rfl

theorem rank_compare_swap (a b : DeviceType) :
    rank_compare a b = (rank_compare b a).swap :=
  natCmp_swap _ _

theorem rank_compare_trans (a b c : DeviceType)
    (h1 : rank_compare a b ≠ Ordering.lt) (h2 : rank_compare b c ≠ Ordering.lt) :
    rank_compare a c ≠ Ordering.lt := by
  unfold rank_compare at h1 h2 ⊢
  rw [natCmp_ne_lt] at h1 h2 ⊢
  omega

theorem adapter_limits_compare_swap (a b : Adapter) :
    adapter_limits_compare a b = (adapter_limits_compare b a).swap :=
  compare_limits_swap _ _

theorem adapter_limits_compare_trans (a b c : Adapter)
    (h1 : adapter_limits_compare a b ≠ Ordering.lt)
    (h2 : adapter_limits_compare b c ≠ Ordering.lt) :
    adapter_limits_compare a c ≠ Ordering.lt :=
  compare_limits_trans _ _ _ h1 h2

/-- C9: with the fixed category ranks Discrete 4 > Integrated 3 > Virtual 2
> Other 1 > Cpu 0, `request_powerful_adapter` returns `None` exactly when no
adapter passes the query filters, and otherwise an adapter that passes the
filters, has maximal category rank among them, and among the adapters tied
on that rank is a maximum of the lexicographic limits comparison (buffer
size, compute workgroup storage, push-constant size, then 2d/1d/3d texture
dimensions). -/
theorem c9_adapter_selection (adapters : List Adapter) (query : AdapterQuery) :
    device_type_ranking DeviceType.DiscreteGpu = 4 ∧
    device_type_ranking DeviceType.IntegratedGpu = 3 ∧
    device_type_ranking DeviceType.VirtualGpu = 2 ∧
    device_type_ranking DeviceType.Other = 1 ∧
    device_type_ranking DeviceType.Cpu = 0 ∧
    (request_powerful_adapter adapters query = none ↔
      adapters.filter (fun a => query.is_adapter_allowed a) = []) ∧
    (∀ chosen, request_powerful_adapter adapters query = some chosen →
      chosen ∈ adapters.filter (fun a => query.is_adapter_allowed a) ∧
      (∀ other ∈ adapters.filter (fun a => query.is_adapter_allowed a),
        device_type_ranking other.device_type ≤ device_type_ranking chosen.device_type) ∧
      (∀ other ∈ adapters.filter (fun a => query.is_adapter_allowed a),
        device_type_ranking other.device_type = device_type_ranking chosen.device_type →
          compare_limits chosen.limits other.limits ≠ Ordering.lt)) := by
  refine ⟨rfl, rfl, rfl, rfl, rfl, ?_, ?_⟩
  · rw [request_powerful_adapter_eq]
    cases hbest : rustMaxBy rank_compare
        ((adapters.filter fun a => query.is_adapter_allowed a).map fun a => a.device_type) with
    | none =>
      rw [rustMaxBy_eq_none, List.map_eq_nil_iff] at hbest
      simp [hbest]
    | some best =>
      have hmem := rustMaxBy_mem hbest
      obtain ⟨w, hw, hwt⟩ := List.mem_map.mp hmem
      have hwtied : w ∈ (adapters.filter fun a => query.is_adapter_allowed a).filter
          (fun adapter => decide (adapter.device_type = best)) :=
        List.mem_filter.mpr ⟨hw, by simp [hwt]⟩
      constructor
      · intro hn
        simp only at hn
        rw [rustMaxBy_eq_none] at hn
        rw [hn] at hwtied
        simp at hwtied
      · intro he
        rw [he] at hw
        simp at hw
  · intro chosen hc
    rw [request_powerful_adapter_eq] at hc
    cases hbest : rustMaxBy rank_compare
        ((adapters.filter fun a => query.is_adapter_allowed a).map fun a => a.device_type) with
    | none => rw [hbest] at hc; simp at hc
    | some best =>
      rw [hbest] at hc
      simp only at hc
      have hmemtied := rustMaxBy_mem hc
      obtain ⟨hmemfil, hdt⟩ := List.mem_filter.mp hmemtied
      have hdt : chosen.device_type = best := by simpa using hdt
      refine ⟨hmemfil, ?_, ?_⟩
      · intro other hother
        have hodt : other.device_type ∈
            (adapters.filter fun a => query.is_adapter_allowed a).map
              (fun a => a.device_type) :=
          List.mem_map.mpr ⟨other, hother, rfl⟩
        have hmax := rustMaxBy_max rank_compare_swap rank_compare_trans hbest
          other.device_type hodt
        have : device_type_ranking other.device_type ≤ device_type_ranking best :=
          natCmp_ne_lt.mp hmax
        rw [hdt]
        exact this
      · intro other hother heq
        have hodt : other.device_type = chosen.device_type :=
          device_type_ranking_injective _ _ heq
        have hother_tied : other ∈ (adapters.filter fun a => query.is_adapter_allowed a).filter
            (fun adapter => decide (adapter.device_type = best)) :=
          List.mem_filter.mpr ⟨hother, by simp [hodt, hdt]⟩
        exact rustMaxBy_max adapter_limits_compare_swap adapter_limits_compare_trans hc
          other hother_tied

def limits_zero : Limits :=
  ⟨0, 0, 0, 0, 0, 0, 0, 0, 0, 0, 0, 0, 0, 0, 0, 0, 0, 0, 0, 0, 0, 0, 0, 0, 0, 0, 0, 0, 0⟩

def adapter_cpu : Adapter :=
  { device_type := DeviceType.Cpu
    device := 0
    surface_support := fun _ => true
    limits := { limits_zero with max_buffer_size := 9 } }

def adapter_igpu : Adapter :=
  { device_type := DeviceType.IntegratedGpu
    device := 1
    surface_support := fun _ => true
    limits := limits_zero }

def trivial_query : AdapterQuery := ⟨none, [], none⟩

theorem c9_adapter_selection_witness :
    request_powerful_adapter [adapter_cpu, adapter_igpu] trivial_query = some adapter_igpu ∧
    adapter_igpu ∈
      [adapter_cpu, adapter_igpu].filter (fun a => trivial_query.is_adapter_allowed a) ∧
    device_type_ranking adapter_cpu.device_type ≤
      device_type_ranking adapter_igpu.device_type := by
  have hreq : request_powerful_adapter [adapter_cpu, adapter_igpu] trivial_query =
      some adapter_igpu := rfl
  obtain ⟨-, -, -, -, -, -, hsome⟩ :=
    c9_adapter_selection [adapter_cpu, adapter_igpu] trivial_query
  obtain ⟨hmem, hrank, -⟩ := hsome adapter_igpu hreq
  exact ⟨hreq, hmem, hrank adapter_cpu (List.mem_filter.mpr ⟨List.mem_cons_self _ _, rfl⟩)⟩

end LfGfx
